import Mathlib

/-!
Shallow embedding of `src/src-tauri/src/falcon8/mod.rs` (the Falcon8Touch
USB device-access layer, built on rusb) and verification of its
specification's claims.

The fallible OS/USB primitives reached through a `rusb::DeviceHandle`
(kernel-driver query, detach, claim, release, control transfer) are
modelled by an explicit `HandleState` (which interfaces have an active
kernel driver, which are claimed) together with a `Faults` oracle that
decides the outcome of each primitive.  Every operation additionally
produces a trace of `Event`s so that ordering/cleanup claims can be
stated.  All definitions are translated from the Rust source.
-/

namespace Falcon8Touch

/-- The `rusb::Error` enumeration (the error type every fallible
operation in the source returns). -/
inductive Error
  | IoError
  | InvalidParam
  | Access
  | NoDevice
  | NotFound
  | Busy
  | Timeout
  | Overflow
  | Pipe
  | Interrupted
  | NoMem
  | NotSupported
  | BadDescriptor
  | Other
  deriving DecidableEq, Fintype, Repr

/-- `struct Endpoint` from mod.rs lines 10-16: the record pushed by
`find_readable_endpoints` (u8 fields modelled as `Nat`). -/
structure Endpoint where
  config : Nat
  iface : Nat
  setting : Nat
  address : Nat
  deriving DecidableEq, Repr

/-- One endpoint descriptor as exposed by rusb (`endpoint_desc.address()`). -/
structure EndpointDescriptor where
  address : Nat
  deriving DecidableEq, Repr

/-- One interface descriptor (an alternate setting) as exposed by rusb:
`interface_number()`, `setting_number()`, `endpoint_descriptors()`. -/
structure InterfaceDescriptor where
  interface_number : Nat
  setting_number : Nat
  endpoint_descriptors : List EndpointDescriptor
  deriving DecidableEq, Repr

/-- One interface as exposed by rusb: `number()` and `descriptors()`
(its alternate settings). -/
structure Interface where
  number : Nat
  descriptors : List InterfaceDescriptor
  deriving DecidableEq, Repr

/-- A configuration descriptor as exposed by rusb: `number()` (the
bConfigurationValue) and `interfaces()`. -/
structure ConfigDescriptor where
  number : Nat
  interfaces : List Interface
  deriving DecidableEq, Repr

/-- The OS-visible state reached through the device handle: which
interface numbers currently have an active kernel driver, and which are
claimed by this process. -/
structure HandleState where
  driverActive : Nat → Bool
  claimed : Nat → Bool

/-- Outcome oracle for the fallible handle primitives: `none` means the
primitive succeeds, `some e` that it fails with `e`.  `transferResult`
is the result of the one control transfer (`Ok(size)` or `Err`), and
`transferBytes` the bytes the device would write into the transfer
buffer. -/
structure Faults where
  queryFails : Nat → Option Error
  detachFails : Nat → Option Error
  claimFails : Nat → Option Error
  releaseFails : Nat → Option Error
  transferResult : Except Error Nat
  transferBytes : List Nat

/-- Trace events: one per OS/USB primitive invocation. -/
inductive Event
  | queryDriver (i : Nat)
  | detachDriver (i : Nat)
  | attachDriver (i : Nat)
  | claimIface (i : Nat)
  | releaseIface (i : Nat)
  | controlTransfer (reqType req value index bufLen timeoutMs : Nat)
  deriving DecidableEq, Repr

/-- `handle.kernel_driver_active(i)`: reads the driver state unless the
fault oracle makes the query fail. -/
def kernelDriverActive (f : Faults) (s : HandleState) (i : Nat) :
    Except Error Bool × HandleState × List Event :=
  match f.queryFails i with
  | some e => (.error e, s, [.queryDriver i])
  | none => (.ok (s.driverActive i), s, [.queryDriver i])

/-- `handle.detach_kernel_driver(i)`: on success the kernel driver stops
being active on interface `i`. -/
def osDetachDriver (f : Faults) (s : HandleState) (i : Nat) :
    Except Error Unit × HandleState × List Event :=
  match f.detachFails i with
  | some e => (.error e, s, [.detachDriver i])
  | none =>
      (.ok (),
       { s with driverActive := fun j => if j = i then false else s.driverActive j },
       [.detachDriver i])

/-- `handle.claim_interface(i)`: on success interface `i` becomes
claimed by this process. -/
def osClaimIface (f : Faults) (s : HandleState) (i : Nat) :
    Except Error Unit × HandleState × List Event :=
  match f.claimFails i with
  | some e => (.error e, s, [.claimIface i])
  | none =>
      (.ok (),
       { s with claimed := fun j => if j = i then true else s.claimed j },
       [.claimIface i])

/-- `handle.release_interface(i)`: on success interface `i` stops being
claimed. -/
def osReleaseIface (f : Faults) (s : HandleState) (i : Nat) :
    Except Error Unit × HandleState × List Event :=
  match f.releaseFails i with
  | some e => (.error e, s, [.releaseIface i])
  | none =>
      (.ok (),
       { s with claimed := fun j => if j = i then false else s.claimed j },
       [.releaseIface i])

/-- `Falcon8::detach_kernel_driver` (mod.rs lines 152-164): queries
`kernel_driver_active(endpoint.iface)`; on `Ok(true)` detaches (the `?`
propagates a detach failure); on `Ok(false)` or a query error it does
nothing and returns `Ok(())`. -/
def detach_kernel_driver (f : Faults) (s : HandleState) (ep : Endpoint) :
    Except Error Unit × HandleState × List Event :=
  match kernelDriverActive f s ep.iface with
  | (.ok true, s1, evs) =>
      match osDetachDriver f s1 ep.iface with
      | (.ok _, s2, evs2) => (.ok (), s2, evs ++ evs2)
      | (.error e, s2, evs2) => (.error e, s2, evs ++ evs2)
  | (.ok false, s1, evs) => (.ok (), s1, evs)
  | (.error _, s1, evs) => (.ok (), s1, evs)

/-- `Falcon8::reattach_kernel_driver` (mod.rs lines 166-178).  Its body
is identical to `detach_kernel_driver`: it queries
`kernel_driver_active` and, on `Ok(true)`, calls
`handle.detach_kernel_driver` again — it never calls an attach
primitive. -/
def reattach_kernel_driver (f : Faults) (s : HandleState) (ep : Endpoint) :
    Except Error Unit × HandleState × List Event :=
  match kernelDriverActive f s ep.iface with
  | (.ok true, s1, evs) =>
      match osDetachDriver f s1 ep.iface with
      | (.ok _, s2, evs2) => (.ok (), s2, evs ++ evs2)
      | (.error e, s2, evs2) => (.error e, s2, evs ++ evs2)
  | (.ok false, s1, evs) => (.ok (), s1, evs)
  | (.error _, s1, evs) => (.ok (), s1, evs)

/-- The triple for-loop of `find_readable_endpoints` (mod.rs lines
105-117), pushing one `Endpoint` per endpoint descriptor onto the
growing vector. -/
def walkEndpoints (cfg : ConfigDescriptor) : List Endpoint :=
  cfg.interfaces.foldl
    (fun acc itf =>
      itf.descriptors.foldl
        (fun acc2 idesc =>
          idesc.endpoint_descriptors.foldl
            (fun acc3 epd =>
              acc3 ++ [{ config := cfg.number,
                         iface := idesc.interface_number,
                         setting := idesc.setting_number,
                         address := epd.address }])
            acc2)
        acc)
    []

/-- `Falcon8::find_readable_endpoints` (mod.rs lines 98-121):
`device.config_descriptor(0)` is the world input (`none` models the Err
case, whose error value the code discards and replaces by `NoDevice`). -/
def find_readable_endpoints (cd : Option ConfigDescriptor) :
    Except Error (List Endpoint) :=
  match cd with
  | none => .error .NoDevice
  | some cfg => .ok (walkEndpoints cfg)

/-- `Falcon8::claim_interfaces` (mod.rs lines 123-137): fetches the
configuration descriptor, then the for-loop claims the first interface
and immediately `break`s, so only the head of the interface list is ever
claimed. -/
def claim_interfaces (cd : Option ConfigDescriptor) (f : Faults) (s : HandleState) :
    Except Error Unit × HandleState × List Event :=
  match cd with
  | none => (.error .NoDevice, s, [])
  | some cfg =>
      match cfg.interfaces with
      | [] => (.ok (), s, [])
      | itf :: _ =>
          match osClaimIface f s itf.number with
          | (.ok _, s1, evs) => (.ok (), s1, evs)
          | (.error e, s1, evs) => (.error e, s1, evs)

/-- The for-loop of `release_interfaces` (mod.rs lines 145-148): releases
every interface in order, the `?` stopping at the first failure. -/
def releaseLoop (f : Faults) : List Interface → HandleState →
    Except Error Unit × HandleState × List Event
  | [], s => (.ok (), s, [])
  | itf :: rest, s =>
      match osReleaseIface f s itf.number with
      | (.ok _, s1, evs) =>
          match releaseLoop f rest s1 with
          | (r, s2, evs2) => (r, s2, evs ++ evs2)
      | (.error e, s1, evs) => (.error e, s1, evs)

/-- `Falcon8::release_interfaces` (mod.rs lines 139-150). -/
def release_interfaces (cd : Option ConfigDescriptor) (f : Faults) (s : HandleState) :
    Except Error Unit × HandleState × List Event :=
  match cd with
  | none => (.error .NoDevice, s, [])
  | some cfg => releaseLoop f cfg.interfaces s

/-- `rusb::Direction`. -/
inductive Direction
  | Out
  | In
  deriving DecidableEq, Repr

/-- `rusb::RequestType`. -/
inductive RequestType
  | Standard
  | Class
  | Vendor
  | Reserved
  deriving DecidableEq, Repr

/-- `rusb::Recipient`. -/
inductive Recipient
  | Device
  | Interface
  | Endpoint
  | Other
  deriving DecidableEq, Repr

/-- `rusb::request_type`: composes the bmRequestType byte from
direction (bit 7), request type (bits 5-6) and recipient (bits 0-4),
as libusb defines them. -/
def request_type (d : Direction) (t : RequestType) (r : Recipient) : Nat :=
  (match d with | .Out => 0x00 | .In => 0x80) |||
  (match t with | .Standard => 0x00 | .Class => 0x20 | .Vendor => 0x40 | .Reserved => 0x60) |||
  (match r with | .Device => 0x00 | .Interface => 0x01 | .Endpoint => 0x02 | .Other => 0x03)

/-- `handle.read_control(request_type, request, value, index, buf,
timeout)`: the outcome comes from the fault oracle; on the data side the
device's bytes are written into the caller's buffer in place (the
buffer's length never changes, exactly as for a `&mut [u8]` slice). -/
def read_control (f : Faults) (reqType req value index : Nat)
    (buf : List Nat) (timeoutMs : Nat) :
    Except Error Nat × List Nat × List Event :=
  (f.transferResult,
   (f.transferBytes ++ buf.drop f.transferBytes.length).take buf.length,
   [.controlTransfer reqType req value index buf.length timeoutMs])

/-- A device session's world as `get_report` sees it: the configuration
descriptor the device yields (fetched afresh by each helper), the fault
oracle and the initial handle state. -/
structure World where
  configDesc : Option ConfigDescriptor
  faults : Faults
  state0 : HandleState

/-- Result of a `get_report` run: a returned value, a returned error, or
a panic (the source indexes `find_readable_endpoints()?[0]`, which
panics when the vector is empty). -/
inductive Outcome
  | ok (data : List Nat)
  | err (e : Error)
  | panicked
  deriving DecidableEq, Repr

/-- A full run: outcome, final handle state, event trace. -/
structure RunResult where
  outcome : Outcome
  state : HandleState
  events : List Event

/-- `Falcon8::get_report` (mod.rs lines 180-207), step by step:
`data = Vec::new()` (an empty buffer); endpoint `[0]` of the walk
(panics when empty); detach; claim; `read_control` with
bmRequestType = In|Class|Interface, request 0x01, value 0x0307, index
0x0002, the buffer `data` and a 1-second timeout; release; reattach;
returns `data`.  Every fallible step uses `?`, so its error is returned
at once. -/
def get_report (w : World) : RunResult :=
  let data : List Nat := []
  match find_readable_endpoints w.configDesc with
  | .error e => ⟨.err e, w.state0, []⟩
  | .ok eps =>
      match eps with
      | [] => ⟨.panicked, w.state0, []⟩
      | ep :: _ =>
          match detach_kernel_driver w.faults w.state0 ep with
          | (.error e, s1, evs1) => ⟨.err e, s1, evs1⟩
          | (.ok _, s1, evs1) =>
              match claim_interfaces w.configDesc w.faults s1 with
              | (.error e, s2, evs2) => ⟨.err e, s2, evs1 ++ evs2⟩
              | (.ok _, s2, evs2) =>
                  match read_control w.faults
                      (request_type .In .Class .Interface)
                      0x01 0x0307 0x0002 data 1000 with
                  | (.error e, _, evs3) => ⟨.err e, s2, evs1 ++ evs2 ++ evs3⟩
                  | (.ok _, data2, evs3) =>
                      match release_interfaces w.configDesc w.faults s2 with
                      | (.error e, s3, evs4) =>
                          ⟨.err e, s3, evs1 ++ evs2 ++ evs3 ++ evs4⟩
                      | (.ok _, s3, evs4) =>
                          match reattach_kernel_driver w.faults s3 ep with
                          | (.error e, s4, evs5) =>
                              ⟨.err e, s4, evs1 ++ evs2 ++ evs3 ++ evs4 ++ evs5⟩
                          | (.ok _, s4, evs5) =>
                              ⟨.ok data2, s4, evs1 ++ evs2 ++ evs3 ++ evs4 ++ evs5⟩

instance {ε α : Type} [DecidableEq ε] [DecidableEq α] : DecidableEq (Except ε α) :=
  fun x y =>
    match x, y with
    | .error a, .error b =>
        if h : a = b then .isTrue (by rw [h]) else .isFalse (by simp [h])
    | .ok a, .ok b =>
        if h : a = b then .isTrue (by rw [h]) else .isFalse (by simp [h])
    | .error _, .ok _ => .isFalse (fun h => Except.noConfusion h)
    | .ok _, .error _ => .isFalse (fun h => Except.noConfusion h)

/-- One enumerated USB device as `open_devices` probes it: the result of
`device_descriptor()` (vendor id, product id on success) and whether
`device.open()` succeeds. -/
structure DeviceOracle where
  descriptor : Except Error (Nat × Nat)
  openOk : Bool
  deriving DecidableEq, Repr

/-- The for-loop of `Falcon8::open_devices` (mod.rs lines 43-57): skips
a device whose descriptor fails (`let Ok(..) else continue`), keeps a
device exactly when its vendor and product ids match and `open()`
succeeds. -/
def openLoop : List DeviceOracle → Nat → Nat → List DeviceOracle
  | [], _, _ => []
  | d :: rest, vid, pid =>
      match d.descriptor with
      | .error _ => openLoop rest vid pid
      | .ok (v, p) =>
          if v = vid ∧ p = pid then
            if d.openOk then d :: openLoop rest vid pid else openLoop rest vid pid
          else openLoop rest vid pid

/-- `Falcon8::open_devices` (mod.rs lines 39-60): `context.devices()?`
then the loop; the loop itself never fails. -/
def open_devices (devicesResult : Except Error (List DeviceOracle))
    (vid pid : Nat) : Except Error (List DeviceOracle) :=
  match devicesResult with
  | .error e => .error e
  | .ok ds => .ok (openLoop ds vid pid)

/-- A rusb context as `Falcon8::new` uses it: only its `devices()`
call matters. -/
structure Ctx where
  devicesResult : Except Error (List DeviceOracle)

/-- `Falcon8::new` (mod.rs lines 26-35): `Context::new()?`,
`open_devices(&mut context, VID, PID)?`, then `NotFound` when the list
is empty.  The `VID`/`PID` constants live in `consts.rs`, which is not
part of the sources here, so they are taken as parameters; no claim
depends on their values. -/
def new (ctxResult : Except Error Ctx) (vid pid : Nat) :
    Except Error (List DeviceOracle) :=
  match ctxResult with
  | .error e => .error e
  | .ok ctx =>
      match open_devices ctx.devicesResult vid pid with
      | .error e => .error e
      | .ok devices => if devices.isEmpty then .error .NotFound else .ok devices

/-- Declarative (spec-side) description of the descriptor walk: one
`Endpoint` per endpoint descriptor, in declared order — first by
interface, then by alternate setting, then by endpoint. -/
def specEndpoints (cfg : ConfigDescriptor) : List Endpoint :=
  cfg.interfaces.flatMap fun itf =>
    itf.descriptors.flatMap fun idesc =>
      idesc.endpoint_descriptors.map fun epd =>
        { config := cfg.number,
          iface := idesc.interface_number,
          setting := idesc.setting_number,
          address := epd.address }

/-- Recognizer for release events in a trace. -/
def isReleaseEvent : Event → Bool
  | .releaseIface _ => true
  | _ => false

/-- Recognizer for control-transfer events in a trace. -/
def isCT : Event → Bool
  | .controlTransfer .. => true
  | _ => false

/-- Recognizer for error outcomes. -/
def isErr : Outcome → Bool
  | .err _ => true
  | _ => false

/-- The spec's example configuration: one interface (number 0) with one
alternate setting (0) holding one endpoint of address 0x81, configuration
value 1. -/
def exCfg : ConfigDescriptor :=
  { number := 1,
    interfaces := [{ number := 0,
                     descriptors := [{ interface_number := 0,
                                       setting_number := 0,
                                       endpoint_descriptors := [{ address := 0x81 }] }] }] }

/-- Fault oracle where every primitive succeeds and the control transfer
reports 8 bytes. -/
def noFaults : Faults :=
  { queryFails := fun _ => none,
    detachFails := fun _ => none,
    claimFails := fun _ => none,
    releaseFails := fun _ => none,
    transferResult := .ok 8,
    transferBytes := [1, 2, 3, 4, 5, 6, 7, 8] }

/-- Fault oracle where only the control transfer fails (with `Timeout`). -/
def failFaults : Faults :=
  { noFaults with transferResult := .error .Timeout }

/-- Initial handle state: no kernel driver active, nothing claimed. -/
def s00 : HandleState :=
  { driverActive := fun _ => false, claimed := fun _ => false }

/-- Handle state with a kernel driver active on every interface. -/
def sAct : HandleState :=
  { driverActive := fun _ => true, claimed := fun _ => false }

/-- The endpoint the example configuration yields. -/
def ep0 : Endpoint := { config := 1, iface := 0, setting := 0, address := 0x81 }

/-- World where every step of `get_report` succeeds. -/
def wOK : World := { configDesc := some exCfg, faults := noFaults, state0 := s00 }

/-- World where everything succeeds except the control transfer. -/
def wFail : World := { configDesc := some exCfg, faults := failFaults, state0 := s00 }

/-- World whose device yields a configuration descriptor with no
interfaces (hence no endpoints). -/
def wEmpty : World :=
  { configDesc := some { number := 1, interfaces := [] },
    faults := noFaults,
    state0 := s00 }

/-- C1: in the world `wFail` — descriptor walk, detach and claim all
succeed, then the control transfer fails with `Timeout` — `get_report`
returns the transfer error with a trace that contains no release event
and no reattach query, and interface 0 is still claimed in the final
state.  This evaluates the code at the failing input: the `?` on
`read_control` returns before `release_interfaces` and
`reattach_kernel_driver` run, contradicting the claim that cleanup
always happens. -/
theorem c1_transfer_failure_skips_cleanup :
    (get_report wFail).outcome = .err .Timeout ∧
    (get_report wFail).events =
      [.queryDriver 0, .claimIface 0, .controlTransfer 0xA1 0x01 0x0307 0x0002 0 1000] ∧
    ((get_report wFail).events.all fun ev => !(isReleaseEvent ev)) = true ∧
    (get_report wFail).state.claimed 0 = true := by
  decide

/-- C2: with the kernel driver initially active on interface 0 and no
fault injected, `detach_kernel_driver` followed by
`reattach_kernel_driver` leaves the driver detached: both calls return
`Ok`, yet the driver that was active before is inactive afterwards, and
the reattach call's whole trace is a single driver query (it never
issues an attach; its body detaches again when a driver is active).
This evaluates the code at the failing input for the round-trip
claim. -/
theorem c2_roundtrip_leaves_driver_detached :
    sAct.driverActive 0 = true ∧
    (detach_kernel_driver noFaults sAct ep0).1 = .ok () ∧
    (reattach_kernel_driver noFaults (detach_kernel_driver noFaults sAct ep0).2.1 ep0).1 = .ok () ∧
    (reattach_kernel_driver noFaults
        (detach_kernel_driver noFaults sAct ep0).2.1 ep0).2.1.driverActive 0 = false ∧
    (reattach_kernel_driver noFaults
        (detach_kernel_driver noFaults sAct ep0).2.1 ep0).2.2 = [.queryDriver 0] := by
  decide

/-- C3 counterexample: in the world `wEmpty` the descriptor walk
succeeds and yields an empty endpoint list, and `get_report` panics
(the out-of-bounds index `[0]`) — its outcome is not an error value of
any kind, refuting the claim that it fails with a `NoEndpoints`
error. -/
theorem c3_counterexample :
    (get_report wEmpty).outcome = .panicked ∧
    isErr (get_report wEmpty).outcome = false := by
  decide

/-- C3 amended: whenever the configuration descriptor is present but
the walk yields no endpoints, `get_report` panics (it indexes `[0]`
into the empty vector) instead of returning an error. -/
theorem c3_empty_endpoints_panics (w : World) (cfg : ConfigDescriptor)
    (h1 : w.configDesc = some cfg) (h2 : walkEndpoints cfg = []) :
    (get_report w).outcome = .panicked := by
  have hfe : find_readable_endpoints w.configDesc = .ok [] := by
    rw [h1]; simp [find_readable_endpoints, h2]
  simp [get_report, hfe]

/-- C3 witness: the amended theorem applied to the concrete world
`wEmpty`. -/
theorem c3_witness : (get_report wEmpty).outcome = .panicked :=
  c3_empty_endpoints_panics wEmpty { number := 1, interfaces := [] } rfl rfl

/-- Instantiation of `read_control` at the empty buffer `get_report`
passes: nothing can be written, the buffer stays empty. -/
lemma read_control_empty (f : Faults) (rt rq v ix t : Nat) :
    read_control f rt rq v ix [] t =
      (f.transferResult, [], [.controlTransfer rt rq v ix 0 t]) := rfl

/-- C4 (divergence witness): whatever the world — in particular
whatever byte count the control transfer reports — when `get_report`
returns `Ok(data)`, `data` is the empty list.  The source allocates the
buffer with `Vec::new()` (length 0), binds the reported size only to
print it, and returns the buffer itself, so the reported count is never
surfaced in the result. -/
theorem c4_result_always_empty (w : World) (d : List Nat)
    (h : (get_report w).outcome = .ok d) : d = [] := by
  rcases hfe : find_readable_endpoints w.configDesc with e | eps
  · simp only [get_report, hfe] at h
    exact Outcome.noConfusion h
  · rcases eps with _ | ⟨ep, rest⟩
    · simp only [get_report, hfe] at h
      exact Outcome.noConfusion h
    · rcases hd : detach_kernel_driver w.faults w.state0 ep with ⟨rd, s1, evs1⟩
      rcases rd with e | u
      · simp only [get_report, hfe, hd] at h
        exact Outcome.noConfusion h
      · rcases hc : claim_interfaces w.configDesc w.faults s1 with ⟨rc, s2, evs2⟩
        rcases rc with e | u2
        · simp only [get_report, hfe, hd, hc] at h
          exact Outcome.noConfusion h
        · rcases ht : w.faults.transferResult with e | n
          · simp only [get_report, hfe, hd, hc, read_control_empty, ht] at h
            exact Outcome.noConfusion h
          · rcases hr : release_interfaces w.configDesc w.faults s2 with ⟨rr, s3, evs4⟩
            rcases rr with e | u3
            · simp only [get_report, hfe, hd, hc, read_control_empty, ht, hr] at h
              exact Outcome.noConfusion h
            · rcases ha : reattach_kernel_driver w.faults s3 ep with ⟨ra, s4, evs5⟩
              rcases ra with e | u4
              · simp only [get_report, hfe, hd, hc, read_control_empty, ht, hr, ha] at h
                exact Outcome.noConfusion h
              · simp only [get_report, hfe, hd, hc, read_control_empty, ht, hr, ha,
                  Outcome.ok.injEq] at h
                exact h.symm

/-- C4 witness: the theorem applied to the all-success world `wOK`,
whose transfer reports 8 bytes; the returned data is nevertheless
empty. -/
theorem c4_witness : ([] : List Nat) = [] :=
  c4_result_always_empty wOK [] (by decide)

/-- Truth of an `Except` being a success, as a boolean. -/
def exceptIsOk {ε α : Type} : Except ε α → Bool
  | .ok _ => true
  | .error _ => false

/-- A context whose device enumeration itself fails with `NotFound`. -/
def ctxEnumFails : Ctx := { devicesResult := .error .NotFound }

/-- A device that matches vendor 7 / product 7 and opens fine. -/
def dGood : DeviceOracle := { descriptor := .ok (7, 7), openOk := true }

/-- A device whose descriptor read fails. -/
def dBadDesc : DeviceOracle := { descriptor := .error .IoError, openOk := true }

/-- A context that enumerates exactly `dGood`. -/
def ctxOne : Ctx := { devicesResult := .ok [dGood] }

/-- C5 counterexample: when `Context::new` succeeds but `devices()`
itself fails with `NotFound`, `new` returns `NotFound` even though the
enumeration did not succeed (so "zero sessions were successfully opened
after a successful enumeration" is false).  This refutes the claimed
"only if" direction of the biconditional. -/
theorem c5_counterexample :
    new (.ok ctxEnumFails) 7 7 = .error .NotFound ∧
    exceptIsOk ctxEnumFails.devicesResult = false := by
  decide

/-- C5 amended: when enumeration succeeds with device list `ds`, `new`
fails with `NotFound` exactly when zero sessions were opened, and
returns the non-empty opened list otherwise; an enumeration failure is
propagated unchanged (which is how the counterexample's `NotFound`
arises). -/
theorem c5_notfound_iff_none_opened (ctx : Ctx) (ds : List DeviceOracle)
    (vid pid : Nat) (h : ctx.devicesResult = .ok ds) :
    (new (.ok ctx) vid pid = .error .NotFound ↔ openLoop ds vid pid = []) ∧
    (openLoop ds vid pid ≠ [] →
      new (.ok ctx) vid pid = .ok (openLoop ds vid pid)) := by
  rcases hl : openLoop ds vid pid with _ | ⟨d, ds'⟩
  · constructor
    · simp [new, open_devices, h, hl]
    · intro hne; exact absurd rfl hne
  · constructor
    · simp [new, open_devices, h, hl]
    · intro _; simp [new, open_devices, h, hl]

/-- C5 witness: the amended theorem applied to a context enumerating
one matching, openable device. -/
theorem c5_witness : new (.ok ctxOne) 7 7 = .ok [dGood] :=
  (c5_notfound_iff_none_opened ctxOne [dGood] 7 7 rfl).2 (by decide)

/-- Membership in the result of the `open_devices` loop: a device is
kept exactly when it occurs in the input, its descriptor read succeeds
with the requested vendor and product ids, and it opens. -/
lemma mem_openLoop_iff (ds : List DeviceOracle) (vid pid : Nat) (d : DeviceOracle) :
    d ∈ openLoop ds vid pid ↔
      d ∈ ds ∧ d.descriptor = .ok (vid, pid) ∧ d.openOk = true := by
  induction ds with
  | nil => simp [openLoop]
  | cons x rest ih =>
      rcases hx : x.descriptor with e | ⟨v, p⟩
      · have hstep : openLoop (x :: rest) vid pid = openLoop rest vid pid := by
          simp [openLoop, hx]
        rw [hstep, ih, List.mem_cons]
        constructor
        · rintro ⟨hm, hd, ho⟩
          exact ⟨Or.inr hm, hd, ho⟩
        · rintro ⟨hm | hm, hd, ho⟩
          · subst hm
            rw [hx] at hd
            exact Except.noConfusion hd
          · exact ⟨hm, hd, ho⟩
      · by_cases hvp : v = vid ∧ p = pid
        · by_cases hop : x.openOk = true
          · have hstep : openLoop (x :: rest) vid pid = x :: openLoop rest vid pid := by
              simp [openLoop, hx, hvp, hop]
            rw [hstep, List.mem_cons, List.mem_cons]
            constructor
            · rintro (hm | hm)
              · subst hm
                exact ⟨Or.inl rfl, by rw [hx, hvp.1, hvp.2], hop⟩
              · rcases ih.mp hm with ⟨hm2, hd, ho⟩
                exact ⟨Or.inr hm2, hd, ho⟩
            · rintro ⟨hm | hm, hd, ho⟩
              · exact Or.inl hm
              · exact Or.inr (ih.mpr ⟨hm, hd, ho⟩)
          · have hstep : openLoop (x :: rest) vid pid = openLoop rest vid pid := by
              simp [openLoop, hx, hvp, hop]
            rw [hstep, ih, List.mem_cons]
            constructor
            · rintro ⟨hm, hd, ho⟩
              exact ⟨Or.inr hm, hd, ho⟩
            · rintro ⟨hm | hm, hd, ho⟩
              · subst hm
                exact absurd ho hop
              · exact ⟨hm, hd, ho⟩
        · have hstep : openLoop (x :: rest) vid pid = openLoop rest vid pid := by
            simp [openLoop, hx, hvp]
          rw [hstep, ih, List.mem_cons]
          constructor
          · rintro ⟨hm, hd, ho⟩
            exact ⟨Or.inr hm, hd, ho⟩
          · rintro ⟨hm | hm, hd, ho⟩
            · subst hm
              rw [hx] at hd
              injection hd with h2
              injection h2 with hv hp
              exact absurd ⟨hv, hp⟩ hvp
            · exact ⟨hm, hd, ho⟩

/-- C6: `open_devices` never fails once enumeration returned a list;
every session it returns is for an enumerated device whose descriptor
succeeded with exactly the configured vendor and product ids and whose
open succeeded (so no session is ever returned for a device with a
different vendor or product id); and every enumerated device that
matches and opens is kept — devices whose descriptor read or open
fails are skipped without aborting the rest of the enumeration. -/
theorem c6_open_devices_matching_only (ds : List DeviceOracle) (vid pid : Nat) :
    open_devices (.ok ds) vid pid = .ok (openLoop ds vid pid) ∧
    (∀ d, d ∈ openLoop ds vid pid →
      d ∈ ds ∧ d.descriptor = .ok (vid, pid) ∧ d.openOk = true) ∧
    (∀ d, d ∈ ds → d.descriptor = .ok (vid, pid) → d.openOk = true →
      d ∈ openLoop ds vid pid) := by
  refine ⟨rfl, ?_, ?_⟩
  · intro d hd
    exact (mem_openLoop_iff ds vid pid d).mp hd
  · intro d hm hd ho
    exact (mem_openLoop_iff ds vid pid d).mpr ⟨hm, hd, ho⟩

/-- C6 witness: a device whose descriptor read fails is skipped while
the matching device after it is still opened. -/
theorem c6_witness : dGood ∈ openLoop [dBadDesc, dGood] 7 7 :=
  (c6_open_devices_matching_only [dBadDesc, dGood] 7 7).2.2 dGood
    (by decide) (by decide) (by decide)

/-- Folding `acc ++ [f x]` over a list appends the mapped list. -/
lemma foldl_push {α β : Type} (f : α → β) (l : List α) : ∀ acc : List β,
    List.foldl (fun a x => a ++ [f x]) acc l = acc ++ l.map f := by
  induction l with
  | nil => intro acc; simp
  | cons x xs ih => intro acc; simp [ih, List.append_assoc]

/-- Folding `acc ++ g x` over a list appends the flat-mapped list. -/
lemma foldl_append_chunk {α β : Type} (g : α → List β) (l : List α) : ∀ acc : List β,
    List.foldl (fun a x => a ++ g x) acc l = acc ++ l.flatMap g := by
  induction l with
  | nil => intro acc; simp
  | cons x xs ih => intro acc; simp [ih, List.append_assoc]

/-- The imperative descriptor walk equals the declarative in-order
flatten. -/
lemma walkEndpoints_eq_spec (cfg : ConfigDescriptor) :
    walkEndpoints cfg = specEndpoints cfg := by
  unfold walkEndpoints specEndpoints
  simp only [foldl_push, foldl_append_chunk, List.nil_append]

/-- C7: for every configuration descriptor, `find_readable_endpoints`
returns exactly one `Endpoint` per endpoint descriptor, carrying the
configuration value, interface number, alternate-setting number and
endpoint address, in declared order (interfaces, then alternate
settings, then endpoints — so index 0 is the first endpoint of the
first alternate setting of the first interface); on the spec's example
configuration it returns exactly one record (cfg 1, interface 0,
alternate setting 0, address 0x81). -/
theorem c7_walk_in_declared_order :
    (∀ cfg : ConfigDescriptor,
      find_readable_endpoints (some cfg) = .ok (specEndpoints cfg)) ∧
    find_readable_endpoints (some exCfg) =
      .ok [{ config := 1, iface := 0, setting := 0, address := 0x81 }] := by
  constructor
  · intro cfg
    simp [find_readable_endpoints, walkEndpoints_eq_spec]
  · decide

/-- Trace of the session-level detach helper: a driver query, possibly
followed by one detach. -/
lemma detach_events_eq (f : Faults) (s : HandleState) (ep : Endpoint) :
    (detach_kernel_driver f s ep).2.2 = [.queryDriver ep.iface] ∨
    (detach_kernel_driver f s ep).2.2 =
      [.queryDriver ep.iface, .detachDriver ep.iface] := by
  unfold detach_kernel_driver kernelDriverActive osDetachDriver
  cases hq : f.queryFails ep.iface
  · cases hb : s.driverActive ep.iface
    · left; simp
    · cases hdf : f.detachFails ep.iface
      · right; simp
      · right; simp
  · left; simp

/-- The reattach helper has the same body as the detach helper. -/
lemma reattach_eq_detach : reattach_kernel_driver = detach_kernel_driver := rfl

/-- No transfer event in the detach helper's trace. -/
lemma detach_no_ct (f : Faults) (s : HandleState) (ep : Endpoint) :
    ∀ ev ∈ (detach_kernel_driver f s ep).2.2, isCT ev = false := by
  rcases detach_events_eq f s ep with h | h <;> rw [h] <;>
    simp [isCT, List.forall_mem_cons]

/-- Trace of `claim_interfaces`: empty, or a single claim of the first
interface. -/
lemma claim_events_eq (cd : Option ConfigDescriptor) (f : Faults) (s : HandleState) :
    (claim_interfaces cd f s).2.2 = [] ∨
    ∃ n, (claim_interfaces cd f s).2.2 = [.claimIface n] := by
  cases cd with
  | none => left; rfl
  | some cfg =>
      cases hifs : cfg.interfaces with
      | nil => left; simp [claim_interfaces, hifs]
      | cons itf rest =>
          right
          refine ⟨itf.number, ?_⟩
          cases hcf : f.claimFails itf.number <;>
            simp [claim_interfaces, osClaimIface, hifs, hcf]

/-- No transfer event in the claim helper's trace. -/
lemma claim_no_ct (cd : Option ConfigDescriptor) (f : Faults) (s : HandleState) :
    ∀ ev ∈ (claim_interfaces cd f s).2.2, isCT ev = false := by
  rcases claim_events_eq cd f s with h | ⟨n, h⟩ <;> rw [h] <;>
    simp [isCT, List.forall_mem_cons]

/-- Every event the release loop emits is a release event. -/
lemma releaseLoop_events_all (f : Faults) : ∀ (l : List Interface) (s : HandleState),
    ∀ ev ∈ (releaseLoop f l s).2.2, ∃ n, ev = Event.releaseIface n := by
  intro l
  induction l with
  | nil => intro s ev hev; simp [releaseLoop] at hev
  | cons itf rest ih =>
      intro s ev hev
      rcases hrf : f.releaseFails itf.number with _ | e
      · rcases hrec : releaseLoop f rest
            { s with claimed := fun j => if j = itf.number then false else s.claimed j } with
          ⟨r2, s2, evs2⟩
        simp only [releaseLoop, osReleaseIface, hrf, hrec, List.mem_append,
          List.mem_cons, List.not_mem_nil, or_false] at hev
        rcases hev with hev | hev
        · exact ⟨itf.number, hev⟩
        · exact ih _ ev (by rw [hrec]; exact hev)
      · simp only [releaseLoop, osReleaseIface, hrf, List.mem_cons,
          List.not_mem_nil, or_false] at hev
        exact ⟨itf.number, hev⟩

/-- No transfer event in the release helper's trace. -/
lemma release_no_ct (cd : Option ConfigDescriptor) (f : Faults) (s : HandleState) :
    ∀ ev ∈ (release_interfaces cd f s).2.2, isCT ev = false := by
  intro ev hev
  cases cd with
  | none => simp [release_interfaces] at hev
  | some cfg =>
      rcases releaseLoop_events_all f cfg.interfaces s ev hev with ⟨n, hn⟩
      rw [hn]; rfl

/-- C8: every control-transfer event `get_report` ever emits — whatever
the world, on the success path or on any failure path that reaches the
transfer — carries bmRequestType = In|Class|Interface (0xA1), request
0x01, value 0x0307, index 0x0002 and the 1000 ms timeout. -/
theorem c8_wire_parameters (w : World) (rt rq v ix bl t : Nat)
    (h : Event.controlTransfer rt rq v ix bl t ∈ (get_report w).events) :
    rt = request_type .In .Class .Interface ∧ rt = 0xA1 ∧ rq = 0x01 ∧
      v = 0x0307 ∧ ix = 0x0002 ∧ t = 1000 := by
  have hct : isCT (Event.controlTransfer rt rq v ix bl t) = true := rfl
  rcases hfe : find_readable_endpoints w.configDesc with e | eps
  · simp [get_report, hfe] at h
  · rcases eps with _ | ⟨ep, rest⟩
    · simp [get_report, hfe] at h
    · rcases hd : detach_kernel_driver w.faults w.state0 ep with ⟨rd, s1, evs1⟩
      have hevs1 : ∀ ev ∈ evs1, isCT ev = false := by
        intro ev hev
        exact detach_no_ct w.faults w.state0 ep ev (by rw [hd]; exact hev)
      rcases rd with e | u
      · simp only [get_report, hfe, hd] at h
        rw [hevs1 _ h] at hct
        exact Bool.noConfusion hct
      · rcases hc : claim_interfaces w.configDesc w.faults s1 with ⟨rc, s2, evs2⟩
        have hevs2 : ∀ ev ∈ evs2, isCT ev = false := by
          intro ev hev
          exact claim_no_ct w.configDesc w.faults s1 ev (by rw [hc]; exact hev)
        rcases rc with e | u2
        · simp only [get_report, hfe, hd, hc, List.mem_append] at h
          rcases h with h | h
          · rw [hevs1 _ h] at hct; exact Bool.noConfusion hct
          · rw [hevs2 _ h] at hct; exact Bool.noConfusion hct
        · have hext : Event.controlTransfer rt rq v ix bl t =
              Event.controlTransfer (request_type .In .Class .Interface)
                0x01 0x0307 0x0002 0 1000 → rt = request_type .In .Class .Interface ∧
                rt = 0xA1 ∧ rq = 0x01 ∧ v = 0x0307 ∧ ix = 0x0002 ∧ t = 1000 := by
            intro he
            injection he with h1 h2 h3 h4 h5 h6
            exact ⟨h1, by rw [h1]; decide, h2, h3, h4, h6⟩
          rcases ht : w.faults.transferResult with e | n
          · simp only [get_report, hfe, hd, hc, read_control_empty, ht,
              List.mem_append, List.mem_cons, List.not_mem_nil, or_false] at h
            rcases h with (h | h) | h
            · rw [hevs1 _ h] at hct; exact Bool.noConfusion hct
            · rw [hevs2 _ h] at hct; exact Bool.noConfusion hct
            · exact hext h
          · rcases hr : release_interfaces w.configDesc w.faults s2 with ⟨rr, s3, evs4⟩
            have hevs4 : ∀ ev ∈ evs4, isCT ev = false := by
              intro ev hev
              exact release_no_ct w.configDesc w.faults s2 ev (by rw [hr]; exact hev)
            rcases rr with e | u3
            · simp only [get_report, hfe, hd, hc, read_control_empty, ht, hr,
                List.mem_append, List.mem_cons, List.not_mem_nil, or_false] at h
              rcases h with ((h | h) | h) | h
              · rw [hevs1 _ h] at hct; exact Bool.noConfusion hct
              · rw [hevs2 _ h] at hct; exact Bool.noConfusion hct
              · exact hext h
              · rw [hevs4 _ h] at hct; exact Bool.noConfusion hct
            · rcases ha : reattach_kernel_driver w.faults s3 ep with ⟨ra, s4, evs5⟩
              have hevs5 : ∀ ev ∈ evs5, isCT ev = false := by
                intro ev hev
                refine detach_no_ct w.faults s3 ep ev ?_
                rw [← reattach_eq_detach, ha]
                exact hev
              rcases ra with e | u4
              · simp only [get_report, hfe, hd, hc, read_control_empty, ht, hr, ha,
                  List.mem_append, List.mem_cons, List.not_mem_nil, or_false] at h
                rcases h with (((h | h) | h) | h) | h
                · rw [hevs1 _ h] at hct; exact Bool.noConfusion hct
                · rw [hevs2 _ h] at hct; exact Bool.noConfusion hct
                · exact hext h
                · rw [hevs4 _ h] at hct; exact Bool.noConfusion hct
                · rw [hevs5 _ h] at hct; exact Bool.noConfusion hct
              · simp only [get_report, hfe, hd, hc, read_control_empty, ht, hr, ha,
                  List.mem_append, List.mem_cons, List.not_mem_nil, or_false] at h
                rcases h with (((h | h) | h) | h) | h
                · rw [hevs1 _ h] at hct; exact Bool.noConfusion hct
                · rw [hevs2 _ h] at hct; exact Bool.noConfusion hct
                · exact hext h
                · rw [hevs4 _ h] at hct; exact Bool.noConfusion hct
                · rw [hevs5 _ h] at hct; exact Bool.noConfusion hct

/-- C8 witness: the theorem applied to the transfer event that occurs
in the all-success world `wOK`. -/
theorem c8_witness :
    (0xA1 : Nat) = request_type .In .Class .Interface ∧ (0xA1 : Nat) = 0xA1 ∧
    (0x01 : Nat) = 0x01 ∧ (0x0307 : Nat) = 0x0307 ∧ (0x0002 : Nat) = 0x0002 ∧
    (1000 : Nat) = 1000 :=
  c8_wire_parameters wOK 0xA1 0x01 0x0307 0x0002 0 1000 (by decide)

/-- C9: the session-level detach helper issues a detach only when the
kernel-driver query succeeded with `true`: whenever the query fails or
returns `false` it performs no state change, emits only the query event
and returns success; and conversely any detach event in its trace
implies the query succeeded, the driver was active, and the detached
interface is the endpoint's. -/
theorem c9_detach_only_when_active :
    (∀ (f : Faults) (s : HandleState) (ep : Endpoint),
        f.queryFails ep.iface ≠ none ∨ s.driverActive ep.iface = false →
        detach_kernel_driver f s ep = (.ok (), s, [.queryDriver ep.iface])) ∧
    (∀ (f : Faults) (s : HandleState) (ep : Endpoint) (i : Nat),
        Event.detachDriver i ∈ (detach_kernel_driver f s ep).2.2 →
        f.queryFails ep.iface = none ∧ s.driverActive ep.iface = true ∧
          i = ep.iface) := by
  constructor
  · intro f s ep h
    rcases hq : f.queryFails ep.iface with _ | e
    · rcases h with h | h
      · exact absurd hq h
      · simp [detach_kernel_driver, kernelDriverActive, hq, h]
    · simp [detach_kernel_driver, kernelDriverActive, hq]
  · intro f s ep i h
    rcases hq : f.queryFails ep.iface with _ | e
    · cases hb : s.driverActive ep.iface
      · simp [detach_kernel_driver, kernelDriverActive, hq, hb] at h
      · rcases hdf : f.detachFails ep.iface with _ | e2
        · simp [detach_kernel_driver, kernelDriverActive, osDetachDriver,
            hq, hb, hdf] at h
          exact ⟨rfl, rfl, h⟩
        · simp [detach_kernel_driver, kernelDriverActive, osDetachDriver,
            hq, hb, hdf] at h
          exact ⟨rfl, rfl, h⟩
    · simp [detach_kernel_driver, kernelDriverActive, hq] at h

/-- C9 witness: the theorem's no-detach case at a concrete state with
no active driver. -/
theorem c9_witness :
    detach_kernel_driver noFaults s00 ep0 = (.ok (), s00, [.queryDriver 0]) :=
  c9_detach_only_when_active.1 noFaults s00 ep0 (Or.inr rfl)

/-- Trace of one `claim_interface` primitive: always exactly the one
claim event. -/
lemma osClaimIface_events (f : Faults) (s : HandleState) (i : Nat) :
    (osClaimIface f s i).2.2 = [.claimIface i] := by
  cases h : f.claimFails i <;> simp [osClaimIface, h]

/-- When no release fails, the release loop emits one release event per
interface, in order. -/
lemma releaseLoop_noFault (f : Faults) (hf : ∀ i, f.releaseFails i = none) :
    ∀ (l : List Interface) (s : HandleState),
      (releaseLoop f l s).2.2 = l.map fun itf => Event.releaseIface itf.number := by
  intro l
  induction l with
  | nil => intro s; rfl
  | cons itf rest ih =>
      intro s
      rcases hrec : releaseLoop f rest
          { s with claimed := fun j => if j = itf.number then false else s.claimed j } with
        ⟨r2, s2, evs2⟩
      have h2 : evs2 = rest.map fun it => Event.releaseIface it.number := by
        have := ih { s with claimed := fun j => if j = itf.number then false else s.claimed j }
        rw [hrec] at this
        exact this
      simp only [releaseLoop, osReleaseIface, hf itf.number]
      rw [hrec]
      simp [h2]

/-- C10: claim and release are asymmetric — for a configuration whose
interface list is `i0 :: rest` with some `j` in `rest` of a different
interface number, `claim_interfaces` emits exactly one claim (of
`i0.number`) and never one for `j.number`, while `release_interfaces`
(when no release fails, as on `get_report`'s success path) emits a
release for every interface including `j.number` — a release of an
interface number that was never claimed. -/
theorem c10_claim_release_asymmetry (cfg : ConfigDescriptor) (f : Faults)
    (s s' : HandleState) (i0 j : Interface) (rest : List Interface)
    (hcfg : cfg.interfaces = i0 :: rest) (hj : j ∈ rest)
    (hne : j.number ≠ i0.number) :
    (claim_interfaces (some cfg) f s).2.2 = [.claimIface i0.number] ∧
    ((∀ i, f.releaseFails i = none) →
      (release_interfaces (some cfg) f s').2.2 =
        (i0 :: rest).map fun itf => Event.releaseIface itf.number) ∧
    Event.claimIface j.number ∉ (claim_interfaces (some cfg) f s).2.2 ∧
    ((∀ i, f.releaseFails i = none) →
      Event.releaseIface j.number ∈ (release_interfaces (some cfg) f s').2.2) := by
  have hclaim : (claim_interfaces (some cfg) f s).2.2 = [.claimIface i0.number] := by
    cases hcf : f.claimFails i0.number <;>
      simp [claim_interfaces, osClaimIface, hcfg, hcf]
  have hrel : (∀ i, f.releaseFails i = none) →
      (release_interfaces (some cfg) f s').2.2 =
        (i0 :: rest).map fun itf => Event.releaseIface itf.number := by
    intro hf
    simp [release_interfaces, hcfg, releaseLoop_noFault f hf]
  refine ⟨hclaim, hrel, ?_, ?_⟩
  · rw [hclaim]
    simp [hne]
  · intro hf
    rw [hrel hf]
    exact List.mem_map.mpr ⟨j, List.mem_cons_of_mem _ hj, rfl⟩

/-- First interface of the two-interface witness configuration. -/
def ifaceA : Interface := { number := 0, descriptors := [] }

/-- Second interface of the two-interface witness configuration. -/
def ifaceB : Interface := { number := 1, descriptors := [] }

/-- A configuration with two interfaces, numbered 0 and 1. -/
def cfg2 : ConfigDescriptor := { number := 1, interfaces := [ifaceA, ifaceB] }

/-- C10 witness: on the two-interface configuration with no faults,
interface 1 is released though it was never claimed. -/
theorem c10_witness :
    Event.releaseIface 1 ∈ (release_interfaces (some cfg2) noFaults s00).2.2 ∧
    Event.claimIface 1 ∉ (claim_interfaces (some cfg2) noFaults s00).2.2 :=
  ⟨(c10_claim_release_asymmetry cfg2 noFaults s00 s00 ifaceA ifaceB [ifaceB]
      rfl (by decide) (by decide)).2.2.2 (fun _ => rfl),
   (c10_claim_release_asymmetry cfg2 noFaults s00 s00 ifaceA ifaceB [ifaceB]
      rfl (by decide) (by decide)).2.2.1⟩

end Falcon8Touch
